import Mathlib

/-!
Verification development for the Sentinel KQL rule validator: a shallow
embedding of the linter's data model, its validators and its orchestration
engine, followed by theorems settling the frozen claims about them.

YAML records are modelled as an ordered association list of string keys to a
tagged union of the value shapes the loader produces (null, bool, int, str,
list, dict).  Python semantics that the source relies on are modelled
explicitly: truthiness, `isinstance` (where `bool` is a subclass of `int`),
`dict.get`, `str()`, and the standard library UUID parser.  A validator whose
Python code can raise is embedded in `Except`, the error carrying the
exception text; the orchestrator catches it exactly where the source does.
-/

set_option autoImplicit false

namespace SentinelLinting

/-- Python string lowercasing restricted to ASCII letters, which is all the
identifiers and duration strings compared by the linter contain. -/
def lowerStr (s : String) : String := String.mk (s.toList.map Char.toLower)

/-- The whitespace characters Python's `str.strip()` removes. -/
def isPySpace (c : Char) : Bool :=
  c == ' ' || c == '\t' || c == '\n' || c == '\r' || c == '\x0b' || c == '\x0c'

/-- Python `str.strip()`: drop whitespace from both ends. -/
def trimStr (s : String) : String :=
  String.mk (((s.toList.dropWhile isPySpace).reverse.dropWhile isPySpace).reverse)

/-- One step of removing every occurrence of `pat` from a character list,
left to right and non-overlapping (Python `str.replace(pat, "")`); the fuel
is an upper bound on the number of steps and is always supplied as more than
the length of the list. -/
def removeOccsGo (pat : List Char) : Nat → List Char → List Char
  | 0, cs => cs
  | _ + 1, [] => []
  | fuel + 1, c :: cs =>
    if pat.isPrefixOf (c :: cs) then removeOccsGo pat fuel (List.drop pat.length (c :: cs))
    else c :: removeOccsGo pat fuel cs

/-- Python `s.replace(pat, "")` for a non-empty pattern. -/
def removeAll (pat : String) (s : String) : String :=
  String.mk (removeOccsGo pat.toList (s.toList.length + 1) s.toList)

/-- Split a character list at every occurrence of `sep` (Python `str.split(sep)`
for a one-character separator); `acc` holds the reversed current fragment. -/
def splitOnCharGo (sep : Char) : List Char → List Char → List String
  | acc, [] => [String.mk acc.reverse]
  | acc, c :: cs =>
    if c == sep then String.mk acc.reverse :: splitOnCharGo sep [] cs
    else splitOnCharGo sep (c :: acc) cs

/-- Python `s.split(sep)` for a one-character separator. -/
def splitOnCh (sep : Char) (s : String) : List String := splitOnCharGo sep [] s.toList

/-- Numeric value of a list of decimal digit characters. -/
def digitsToNat (cs : List Char) : Nat :=
  cs.foldl (fun n c => n * 10 + (c.toNat - 48)) 0

/-- A hexadecimal digit as `int(_, 16)` accepts them. -/
def isHexChar (c : Char) : Bool :=
  c.isDigit || ('a' ≤ c && c ≤ 'f') || ('A' ≤ c && c ≤ 'F')

/-- The values a parsed YAML document is built from: the shapes
`yaml.safe_load` produces and the validators inspect. A dict is an ordered
association list, as in Python 3.7+. -/
inductive Value where
  | vnull : Value
  | vbool : Bool → Value
  | vint : Int → Value
  | vstr : String → Value
  | vlist : List Value → Value
  | vdict : List (String × Value) → Value
  deriving Repr, Inhabited

/-- One parsed detection-rule document: a string-keyed mapping. -/
def Record := List (String × Value)

/-- Python `key in rule_data`: key presence, regardless of the stored value. -/
def hasKey (r : Record) (k : String) : Bool := r.any (fun p => p.1 == k)

/-- Python `rule_data[key]` and `dict.get(key, default)` without the default:
the stored value itself, `none` when the key is missing. -/
def getRaw (r : Record) (k : String) : Option Value :=
  (r.find? (fun p => p.1 == k)).map (·.2)

/-- Python `rule_data.get(key)` as the source's `is None` tests read it: a
missing key and a stored YAML null are both the `None` object, so both map
to `none`. -/
def getVal (r : Record) (k : String) : Option Value :=
  match getRaw r k with
  | some .vnull => none
  | o => o

/-- Python `rule_data.get(key, default)`: the default only replaces a missing
key, never a stored null. -/
def getDefault (r : Record) (k : String) (d : Value) : Value := (getRaw r k).getD d

/-- Python truthiness of a value. -/
def truthyV : Value → Bool
  | .vnull => false
  | .vbool b => b
  | .vint n => n != 0
  | .vstr s => s.length != 0
  | .vlist l => !l.isEmpty
  | .vdict d => !d.isEmpty

/-- Python truthiness of the result of a `get`: `None` is falsy. -/
def truthy : Option Value → Bool
  | none => false
  | some v => truthyV v

/-- The runtime type names Python's `type(x).__name__` yields. -/
def typeName : Value → String
  | .vnull => "NoneType"
  | .vbool _ => "bool"
  | .vint _ => "int"
  | .vstr _ => "str"
  | .vlist _ => "list"
  | .vdict _ => "dict"

/-- The Python types the schema's expected-type table mentions. -/
inductive PyType where
  | pstr | pint | pbool | plist | pdict
  deriving Repr, DecidableEq

/-- Python `isinstance`. The case `isinstance(True, int) == True` is the
load-bearing one: in CPython `bool` is a subclass of `int`. -/
def isinstance : Value → PyType → Bool
  | .vstr _, .pstr => true
  | .vint _, .pint => true
  | .vbool _, .pint => true
  | .vbool _, .pbool => true
  | .vlist _, .plist => true
  | .vdict _, .pdict => true
  | _, _ => false

/-- `type.__name__` of an expected type. -/
def pyTypeName : PyType → String
  | .pstr => "str"
  | .pint => "int"
  | .pbool => "bool"
  | .plist => "list"
  | .pdict => "dict"

/-- Python `str(v)` on the values that reach a message. Strings render as
themselves and the scalar constants as CPython prints them; composite values
only ever appear inside diagnostic text and are abbreviated. -/
def pyStr : Value → String
  | .vnull => "None"
  | .vbool true => "True"
  | .vbool false => "False"
  | .vint n => toString n
  | .vstr s => s
  | .vlist _ => "<list>"
  | .vdict _ => "<dict>"

/-- The integer a value carries when Python arithmetic or comparison uses it
(`True` counts as 1, `False` as 0). -/
def pyIntVal : Value → Int
  | .vint n => n
  | .vbool true => 1
  | .vbool false => 0
  | _ => 0

/-- A diagnostic dict as a validator returns it to the orchestrator
(`ValidationError.to_dict`). `create_error` and `create_warning` always set
severity and message; the orchestrator nevertheless reads both with
defaults (`error.get('severity', 'error')`, `error.get('message', ...)`),
so they are optional here. The field key is present only when truthy. -/
structure Diag where
  severity : Option String
  message : Option String
  field : Option String
  deriving Repr, DecidableEq

/-- `BaseValidator.create_error`. -/
def create_error (message : String) (field : Option String) : Diag :=
  ⟨some "error", some message, field⟩

/-- `BaseValidator.create_warning`. -/
def create_warning (message : String) (field : Option String) : Diag :=
  ⟨some "warning", some message, field⟩

/-! ## Configuration tables (`config/schema_definition.py`, `config/entity_identifiers.py`) -/

/-- Required fields that must be present in every rule. -/
def REQUIRED_FIELDS : List String :=
  ["id", "name", "kind", "description", "severity", "enabled", "query",
   "queryFrequency", "queryPeriod", "triggerOperator", "triggerThreshold"]

/-- Expected data types for fields, keyed by dot-separated path, in the
source's insertion order. -/
def EXPECTED_TYPES : List (String × PyType) :=
  [("id", .pstr), ("name", .pstr), ("displayName", .pstr), ("version", .pstr),
   ("lastModified", .pstr), ("kind", .pstr), ("description", .pstr),
   ("severity", .pstr), ("enabled", .pbool), ("queryFrequency", .pstr),
   ("queryPeriod", .pstr), ("triggerOperator", .pstr),
   ("triggerThreshold", .pint), ("query", .pstr), ("suppressionEnabled", .pbool),
   ("tactics", .plist), ("relevantTechniques", .plist), ("entityMappings", .plist),
   ("customDetails", .pdict),
   ("incidentConfiguration.createIncident", .pbool),
   ("incidentConfiguration.groupingConfiguration.enabled", .pbool),
   ("incidentConfiguration.groupingConfiguration.reopenClosedIncident", .pbool),
   ("incidentConfiguration.groupingConfiguration.lookbackDuration", .pstr),
   ("incidentConfiguration.groupingConfiguration.matchingMethod", .pstr),
   ("incidentConfiguration.groupingConfiguration.groupByEntities", .plist),
   ("incidentConfiguration.groupingConfiguration.groupByAlertDetails", .plist),
   ("incidentConfiguration.groupingConfiguration.groupByCustomDetails", .plist),
   ("eventGroupingSettings.aggregationKind", .pstr),
   ("alertDetailsOverride.alertDisplayNameFormat", .pstr),
   ("alertDetailsOverride.alertDescriptionFormat", .pstr),
   ("alertDetailsOverride.alertTacticsColumnName", .pstr),
   ("alertDetailsOverride.alertSeverityColumnName", .pstr)]

/-- Strong identifiers for each entity type, in the source's order. -/
def ENTITY_STRONG_IDENTIFIERS : List (String × List String) :=
  [("Account", ["Name", "FullName", "NTDomain", "DnsDomain", "UPNSuffix", "Sid",
                "AadUserId", "AadTenantId", "ObjectGuid", "PUID"]),
   ("Host", ["FullName", "DnsDomain", "NTDomain", "HostName", "NetBiosName",
             "AzureID", "OMSAgentID", "OSFamily", "OSVersion"]),
   ("IP", ["Address"]),
   ("Malware", ["Name", "Category"]),
   ("File", ["Name", "Directory", "FileHashType", "FileHashValue"]),
   ("Process", ["ProcessId", "CommandLine", "ElevationToken", "CreationTimeUtc"]),
   ("CloudApplication", ["AppId", "Name", "InstanceName"]),
   ("DNS", ["DomainName"]),
   ("AzureResource", ["ResourceId"]),
   ("FileHash", ["Algorithm", "Value"]),
   ("RegistryKey", ["Hive", "Key"]),
   ("RegistryValue", ["Name", "Value", "ValueType"]),
   ("SecurityGroup", ["DistinguishedName", "SID", "ObjectGuid"]),
   ("URL", ["Url"]),
   ("IoTDevice", ["DeviceId", "DeviceName", "Source", "IoTSecurityAgentId"]),
   ("MailCluster", ["NetworkMessageIds", "CountByDeliveryStatus", "CountByThreatType",
                    "CountByProtectionStatus", "Threats", "Query", "QueryTime",
                    "MailCount", "Source"]),
   ("MailMessage", ["NetworkMessageId", "Recipient", "Urls", "Threats", "Sender",
                    "P1Sender", "P2Sender", "Subject", "BodyFingerprintBin1",
                    "AntispamDirection", "DeliveryAction", "DeliveryLocation"]),
   ("Mailbox", ["MailboxPrimaryAddress", "DisplayName", "Upn",
                "ExternalDirectoryObjectId"]),
   ("SubmissionMail", ["SubmissionId", "Submitter", "NetworkMessageId", "Recipient",
                       "Sender", "Subject"])]

/-- Python `entity_type in ENTITY_STRONG_IDENTIFIERS` and the subsequent
subscript, in one lookup. -/
def lookupEntity (et : String) : Option (List String) :=
  (ENTITY_STRONG_IDENTIFIERS.find? (fun p => p.1 == et)).map (·.2)

/-! ## Record source (`utils/yaml_loader.py`)

`load_yaml_file` either returns a parsed record or raises `YAMLLoadError`
with a message describing the failure.  The file system is modelled as an
association list from file names to that outcome; a name not listed at all
loads as the loader's file-not-found error. -/

/-- The file system a run sees: file name to load outcome (`Except` error
side carries the `YAMLLoadError` message). -/
def FileSys := List (String × Except String Record)

/-- `load_yaml_file`: the stored outcome, or the file-not-found error. -/
def load_yaml_file (fs : FileSys) (p : String) : Except String Record :=
  match fs.find? (fun e => e.1 == p) with
  | some e => e.2
  | none => .error s!"File not found: {p}"

/-! ## GUID validator (`validators/guid_validator.py`) -/

namespace GuidValidator

/-- Modelled from the Python standard library: the strings `uuid.UUID(s)`
accepts.  CPython removes every occurrence of `urn:` and `uuid:`, strips
surrounding braces, removes every hyphen, then requires exactly 32
hexadecimal digits (corner tolerances of `int(_, 16)` such as underscore
separators are not modelled; no identifier in scope contains them). -/
def uuidAccepts (s : String) : Bool :=
  let s1 := removeAll "uuid:" (removeAll "urn:" s)
  let s2 := (((s1.toList.dropWhile fun c => c == '\x7b' || c == '\x7d').reverse.dropWhile
      fun c => c == '\x7b' || c == '\x7d').reverse)
  let s3 := s2.filter (fun c => c != '-')
  s3.length == 32 && s3.all isHexChar

/-- `GuidValidator._is_valid_guid`: a string the UUID parser accepts. -/
def is_valid_guid : Value → Bool
  | .vstr s => uuidAccepts s
  | _ => false

/-- `GuidValidator._find_duplicate_guids`: every other file that loads and
whose `id` value, stringified, equals this one after trim and lowercase.
Paths are modelled as plain file names, so `resolve()` and `.name` are the
identity. -/
def find_duplicate_guids (fs : FileSys) (guid : Value) (currentFile : String)
    (allFiles : List String) : List String :=
  let guidNorm := lowerStr (trimStr (pyStr guid))
  allFiles.filterMap fun f =>
    if f == currentFile then none
    else
      match load_yaml_file fs f with
      | .error _ => none
      | .ok otherRule =>
        match getVal otherRule "id" with
        | none => none
        | some otherGuid =>
          if lowerStr (trimStr (pyStr otherGuid)) == guidNorm then some f else none

/-- The invalid-format message of `GuidValidator.validate`, naming the value
and the expected format. -/
def invalidGuidMsg (gs : String) : String :=
  s!"Field 'id' contains invalid GUID format: '{gs}'. " ++
  "Expected format: 'xxxxxxxx-xxxx-xxxx-xxxx-xxxxxxxxxxxx'"

/-- The duplicate-identifier message of `GuidValidator.validate`, listing the
colliding file names. -/
def notUniqueMsg (gs : String) (duplicateFiles : List String) : String :=
  let fileList := String.intercalate ", " duplicateFiles
  s!"GUID '{gs}' is not unique. Also found in: {fileList}"

/-- `GuidValidator.validate`. `allFiles = []` models the `all_files=None`
default as well: both are falsy, so the uniqueness check is skipped. -/
def validate (fs : FileSys) (rule_data : Record) (file_path : String)
    (allFiles : List String) : List Diag :=
  match getRaw rule_data "id" with
  | none => [create_error "Missing required field 'id'" (some "id")]
  | some guidValue =>
    if !is_valid_guid guidValue then
      [create_error (invalidGuidMsg (pyStr guidValue)) (some "id")]
    else if allFiles.isEmpty then []
    else
      let duplicateFiles := find_duplicate_guids fs guidValue file_path allFiles
      if duplicateFiles.isEmpty then []
      else
        [create_error (notUniqueMsg (pyStr guidValue) duplicateFiles) (some "id")]

end GuidValidator

/-- Follows the spec's words, for comparison with the implementation: a
string in canonical 8-4-4-4-12 hexadecimal grouping. -/
def specCanonicalGuid (s : String) : Bool :=
  let parts := splitOnCh '-' s
  parts.map (fun p => p.toList.length) == [8, 4, 4, 4, 12] &&
    parts.all (fun p => p.toList.all isHexChar)

/-! ## Schema validator (`validators/schema_validator.py`) -/

namespace SchemaValidator

/-- The dot-path walk of `_validate_field_type`: at each step, stop with
`none` when the current value is not a mapping or the next segment is
missing (or stored as null, which Python's `is None` test treats the same). -/
def resolvePath : Value → List String → Option Value
  | v, [] => some v
  | .vdict d, p :: ps =>
    match getVal d p with
    | none => none
    | some v => resolvePath v ps
  | _, _ :: _ => none

/-- `SchemaValidator._validate_field_type`. -/
def validate_field_type (data : Record) (field_path : String) (expected_type : PyType) :
    Option Diag :=
  match resolvePath (.vdict data) (splitOnCh '.' field_path) with
  | none => none
  | some current =>
    if isinstance current expected_type then none
    else
      let actual_type := typeName current
      let expected_type_name := pyTypeName expected_type
      if expected_type == .pbool && isinstance current .pstr then
        some (create_error
          (s!"Field '{field_path}' has incorrect type. " ++
           s!"Expected {expected_type_name}, got {actual_type}. " ++
           s!"Use {field_path}: true instead of {field_path}: 'true'")
          (some field_path))
      else
        some (create_error
          (s!"Field '{field_path}' has incorrect type. " ++
           s!"Expected {expected_type_name}, got {actual_type}")
          (some field_path))

/-- `SchemaValidator.validate`: required-field presence, then declared-type
conformance over the expected-type table. -/
def validate (rule_data : Record) : List Diag :=
  (REQUIRED_FIELDS.filterMap fun field =>
    if hasKey rule_data field then none
    else some (create_error s!"Missing required field '{field}'" (some field)))
  ++ EXPECTED_TYPES.filterMap fun ft => validate_field_type rule_data ft.1 ft.2

end SchemaValidator

/-! ## Timing validator (`validators/timing_validator.py`) -/

namespace TimingValidator

/-- `TimingValidator._parse_time_value`: minutes parsed from `<digits><unit>`
(after lowercasing), or the format diagnostic. -/
def parse_time_value (v : Value) (field_name : String) : Option Nat × Option Diag :=
  match v with
  | .vstr time_str =>
    let cs := (lowerStr time_str).toList
    match cs.getLast? with
    | some unit =>
      let ds := cs.dropLast
      if (unit == 'm' || unit == 'h' || unit == 'd') && !ds.isEmpty &&
          ds.all Char.isDigit then
        let value := digitsToNat ds
        let mult : Nat := if unit == 'm' then 1 else if unit == 'h' then 60 else 1440
        (some (value * mult), none)
      else
        (none, some (create_error
          (s!"Field '{field_name}' has invalid format: '{time_str}'. " ++
           "Expected format: <number><unit> where unit is 'm' (minutes), " ++
           "'h' (hours), or 'd' (days). Examples: '5m', '1h', '2d'")
          (some field_name)))
    | none =>
      (none, some (create_error
        (s!"Field '{field_name}' has invalid format: '{time_str}'. " ++
         "Expected format: <number><unit> where unit is 'm' (minutes), " ++
         "'h' (hours), or 'd' (days). Examples: '5m', '1h', '2d'")
        (some field_name)))
  | other =>
    let tn := typeName other
    (none, some (create_error
      (s!"Field '{field_name}' must be a string, got {tn}") (some field_name)))

/-- `TimingValidator.validate`: parse both duration fields when truthy, then
frequency-versus-period and the 14-day period cap, in the source's order of
appends. -/
def validate (rule_data : Record) : List Diag :=
  let query_frequency := getVal rule_data "queryFrequency"
  let query_period := getVal rule_data "queryPeriod"
  let fres : Option Nat × List Diag :=
    if truthy query_frequency then
      match parse_time_value (query_frequency.getD .vnull) "queryFrequency" with
      | (m, some e) => (m, [e])
      | (m, none) => (m, [])
    else (none, [])
  let pres : Option Nat × List Diag :=
    if truthy query_period then
      match parse_time_value (query_period.getD .vnull) "queryPeriod" with
      | (m, some e) => (m, [e])
      | (m, none) => (m, [])
    else (none, [])
  let constraintErrs : List Diag :=
    match fres.1, pres.1 with
    | some freq_minutes, some period_minutes =>
      if freq_minutes > period_minutes then
        let qfs := pyStr (query_frequency.getD .vnull)
        let qps := pyStr (query_period.getD .vnull)
        [create_error
          (s!"queryFrequency '{qfs}' ({freq_minutes} minutes) cannot exceed " ++
           s!"queryPeriod '{qps}' ({period_minutes} minutes)")
          (some "queryFrequency")]
      else []
    | _, _ => []
  let capErrs : List Diag :=
    match pres.1 with
    | some period_minutes =>
      if period_minutes > 20160 then
        let qps := pyStr (query_period.getD .vnull)
        [create_error
          (s!"queryPeriod '{qps}' ({period_minutes} minutes) exceeds " ++
           "maximum of 14 days (20160 minutes)")
          (some "queryPeriod")]
      else []
    | none => []
  fres.2 ++ pres.2 ++ constraintErrs ++ capErrs

end TimingValidator

/-! ## Entity validator (`validators/entity_validator.py`)

In the source, `_find_correct_entity_case` is defined at module level (its
`def` is dedented out of the class body), so `self._find_correct_entity_case`
raises `AttributeError` whenever `_validate_strong_identifier` reaches an
entity type that is not an exact key of the table.  The embedding returns
that exception on the `Except` error side, exactly where the source raises. -/

/-- Python iteration over the value `for _ in x` receives: lists yield their
elements, strings their one-character substrings, dicts their keys; other
values raise `TypeError`. -/
def pyIterVals : Value → Except String (List Value)
  | .vlist l => .ok l
  | .vstr s => .ok (s.toList.map fun c => .vstr (String.mk [c]))
  | .vdict d => .ok (d.map fun p => .vstr p.1)
  | v => .error s!"'{typeName v}' object is not iterable"

namespace EntityValidator

/-- The module-level `_find_correct_entity_case` as written in the source: a
case-insensitive search for the correctly-cased entity type.  Unreachable
from the class, since it is not one of its attributes. -/
def find_correct_entity_case (entity_type : String) : Option String :=
  if entity_type == "" then none
  else
    (ENTITY_STRONG_IDENTIFIERS.find? fun valid_entity =>
      lowerStr valid_entity.1 == lowerStr entity_type).map (·.1)

/-- `EntityValidator._validate_strong_identifier`.  The two unknown-entity
branches raise: `self._find_correct_entity_case` is not an attribute of the
class.  A non-string identifier raises inside the comparison loop
(`identifier.lower()`). -/
def validate_strong_identifier (entity_type identifier : Value)
    (entity_idx field_idx : Nat) : Except String (Option Diag) :=
  match entity_type with
  | .vstr et =>
    match lookupEntity et with
    | none => .error "'EntityValidator' object has no attribute '_find_correct_entity_case'"
    | some strong_identifiers =>
      match identifier with
      | .vstr idf =>
        match strong_identifiers.find? (fun valid_id => lowerStr valid_id == lowerStr idf) with
        | some valid_id =>
          if valid_id != idf then
            .ok (some (create_error
              (s!"Invalid identifier casing '{idf}'. " ++
               s!"Identifiers are case-sensitive. Use '{valid_id}' instead.")
              (some s!"entityMappings[{entity_idx}].fieldMappings[{field_idx}].identifier")))
          else .ok none
        | none =>
          let valid_ids := String.intercalate ", " strong_identifiers
          .ok (some (create_warning
            (s!"Entity type '{et}' is using identifier '{idf}' which may not be " ++
             s!"a strong identifier. Recommended strong identifiers: {valid_ids}")
            (some s!"entityMappings[{entity_idx}].fieldMappings[{field_idx}].identifier")))
      | other =>
        match strong_identifiers with
        | [] =>
          let ids := pyStr other
          .ok (some (create_warning
            (s!"Entity type '{et}' is using identifier '{ids}' which may not be " ++
             "a strong identifier. Recommended strong identifiers: ")
            (some s!"entityMappings[{entity_idx}].fieldMappings[{field_idx}].identifier")))
        | _ :: _ =>
          let tn := typeName other
          .error s!"'{tn}' object has no attribute 'lower'"
  | _ => .error "'EntityValidator' object has no attribute '_find_correct_entity_case'"

/-- The field-mapping loop of `_validate_entity`: non-dict entries are
skipped, a missing identifier or column name is one error and a `continue`,
otherwise the strong-identifier check contributes its diagnostic. -/
def validateFieldMappings (entity_type : Value) (index : Nat) :
    Nat → List Value → Except String (List Diag)
  | _, [] => .ok []
  | field_idx, fm :: rest =>
    match fm with
    | .vdict fd =>
      let identifier := getVal fd "identifier"
      let column_name := getVal fd "columnName"
      let ets := pyStr entity_type
      if !truthy identifier then do
        let restDiags ← validateFieldMappings entity_type index (field_idx + 1) rest
        .ok (create_error (s!"Field mapping for entity '{ets}' missing 'identifier'")
          (some s!"entityMappings[{index}].fieldMappings[{field_idx}].identifier") :: restDiags)
      else if !truthy column_name then do
        let restDiags ← validateFieldMappings entity_type index (field_idx + 1) rest
        .ok (create_error (s!"Field mapping for entity '{ets}' missing 'columnName'")
          (some s!"entityMappings[{index}].fieldMappings[{field_idx}].columnName") :: restDiags)
      else do
        let identifier_error ←
          validate_strong_identifier entity_type (identifier.getD .vnull) index field_idx
        let restDiags ← validateFieldMappings entity_type index (field_idx + 1) rest
        .ok (identifier_error.toList ++ restDiags)
    | _ => validateFieldMappings entity_type index (field_idx + 1) rest

/-- `EntityValidator._validate_entity`. -/
def validate_entity (entity : Value) (index : Nat) : Except String (List Diag) :=
  match entity with
  | .vdict ed =>
    let entity_type := getVal ed "entityType"
    if !truthy entity_type then
      .ok [create_error (s!"Entity mapping at index {index} missing 'entityType'")
        (some s!"entityMappings[{index}].entityType")]
    else
      let etv := entity_type.getD .vnull
      let field_mappings := getDefault ed "fieldMappings" (.vlist [])
      if !truthyV field_mappings then
        let ets := pyStr etv
        .ok [create_error (s!"Entity '{ets}' has no fieldMappings")
          (some s!"entityMappings[{index}].fieldMappings")]
      else do
        let fms ← pyIterVals field_mappings
        validateFieldMappings etv index 0 fms
  | _ =>
    .ok [create_error (s!"Entity mapping at index {index} must be a dictionary")
      (some s!"entityMappings[{index}]")]

/-- The per-entity loop of `EntityValidator.validate`. -/
def validateEntities : Nat → List Value → Except String (List Diag)
  | _, [] => .ok []
  | idx, entity :: rest => do
    let entity_errors ← validate_entity entity idx
    let restErrors ← validateEntities (idx + 1) rest
    .ok (entity_errors ++ restErrors)

/-- `EntityValidator.validate`. -/
def validate (rule_data : Record) : Except String (List Diag) :=
  let entity_mappings := getDefault rule_data "entityMappings" (.vlist [])
  if !truthyV entity_mappings then .ok []
  else
    match entity_mappings with
    | .vlist ems => validateEntities 0 ems
    | _ => .ok [create_error "Field 'entityMappings' must be a list" (some "entityMappings")]

end EntityValidator

/-! ## Sentinel constraints validator (`validators/sentinel_constraints_validator.py`) -/

namespace SentinelConstraintsValidator

def VALID_KINDS : List String := ["Scheduled", "NRT"]

def VALID_SEVERITIES : List String := ["Informational", "Low", "Medium", "High"]

def VALID_TRIGGER_OPERATORS : List String :=
  ["GreaterThan", "LessThan", "Equal", "gt", "lt", "eq"]

def VALID_TACTICS : List String :=
  ["Reconnaissance", "ResourceDevelopment", "InitialAccess", "Execution",
   "Persistence", "PrivilegeEscalation", "DefenseEvasion", "CredentialAccess",
   "Discovery", "LateralMovement", "Collection", "CommandAndControl",
   "Exfiltration", "Impact"]

def VALID_AGGREGATION_KINDS : List String := ["SingleAlert", "AlertPerResult"]

def MAX_NAME_LENGTH : Nat := 50
def MAX_DESCRIPTION_LENGTH : Nat := 255
def MAX_QUERY_LENGTH : Nat := 10000
def MAX_TRIGGER_THRESHOLD : Int := 10000
def MAX_ENTITY_MAPPINGS : Nat := 10
def MAX_FIELD_MAPPINGS_PER_ENTITY : Nat := 3
def MAX_CUSTOM_DETAILS : Nat := 20
def MAX_ALERT_NAME_LENGTH : Nat := 256
def MAX_ALERT_DESCRIPTION_LENGTH : Nat := 5000
def MAX_ALERT_PARAMETERS : Nat := 3

/-- The shared shape of `_validate_kind`, `_validate_severity` and
`_validate_trigger_operator`: empty/absent is itself an error, a value
outside the list is an error, and a truthy non-string raises at `.strip()`. -/
def validateEnumField (r : Record) (fieldName : String) (valid : List String) :
    Except String (List Diag) :=
  let v := getVal r fieldName
  match v with
  | none => .ok [create_error s!"Field '{fieldName}' cannot be empty" (some fieldName)]
  | some val =>
    if !truthyV val then
      .ok [create_error s!"Field '{fieldName}' cannot be empty" (some fieldName)]
    else
      match val with
      | .vstr s =>
        if (trimStr s).length == 0 then
          .ok [create_error s!"Field '{fieldName}' cannot be empty" (some fieldName)]
        else if valid.contains s then .ok []
        else
          let valid_values := String.intercalate "', '" valid
          .ok [create_error
            (s!"Field '{fieldName}' has invalid value '{s}'. " ++
             s!"Must be one of: '{valid_values}'")
            (some fieldName)]
      | other =>
        let tn := typeName other
        .error s!"'{tn}' object has no attribute 'strip'"

/-- `_validate_kind`. -/
def validate_kind (r : Record) : Except String (List Diag) :=
  validateEnumField r "kind" VALID_KINDS

/-- `_validate_severity`. -/
def validate_severity (r : Record) : Except String (List Diag) :=
  validateEnumField r "severity" VALID_SEVERITIES

/-- `_validate_trigger_operator`. -/
def validate_trigger_operator (r : Record) : Except String (List Diag) :=
  validateEnumField r "triggerOperator" VALID_TRIGGER_OPERATORS

/-- `_validate_trigger_threshold`: absent is skipped, non-int is one error,
out-of-range is one error (a bool passes the `isinstance(_, int)` gate and
compares as 0 or 1). -/
def validate_trigger_threshold (r : Record) : List Diag :=
  match getVal r "triggerThreshold" with
  | none => []
  | some tt =>
    if !isinstance tt .pint then
      let tn := typeName tt
      [create_error (s!"Field 'triggerThreshold' must be an integer, got {tn}")
        (some "triggerThreshold")]
    else
      let n := pyIntVal tt
      if n < 0 || n > MAX_TRIGGER_THRESHOLD then
        let ns := pyStr tt
        [create_error
          (s!"Field 'triggerThreshold' must be between 0 and 10000, got {ns}")
          (some "triggerThreshold")]
      else []

/-- The per-tactic body of `_validate_tactics`. -/
def checkTactic (idx : Nat) (tactic : Value) : Option Diag :=
  match tactic with
  | .vstr t =>
    if VALID_TACTICS.contains t then none
    else
      let tactic_no_space := removeAll " " t
      if VALID_TACTICS.contains tactic_no_space then
        some (create_error
          (s!"Tactic '{t}' contains spaces. " ++
           s!"MITRE ATT&CK tactics must not contain spaces. Use '{tactic_no_space}' instead")
          (some s!"tactics[{idx}]"))
      else
        let valid_list := String.intercalate ", " VALID_TACTICS
        some (create_error
          (s!"Tactic '{t}' is not a valid MITRE ATT&CK v13 tactic. " ++
           s!"Valid tactics are: {valid_list}")
          (some s!"tactics[{idx}]"))
  | other =>
    let tn := typeName other
    some (create_error (s!"Tactic at index {idx} must be a string, got {tn}")
      (some s!"tactics[{idx}]"))

/-- `_validate_tactics`: absent/falsy is skipped, a non-list is one error,
each entry is checked in order. -/
def validate_tactics (r : Record) : List Diag :=
  match getVal r "tactics" with
  | none => []
  | some tv =>
    if !truthyV tv then []
    else
      match tv with
      | .vlist tactics =>
        (tactics.enum.filterMap fun p => checkTactic p.1 p.2)
      | other =>
        let tn := typeName other
        [create_error (s!"Field 'tactics' must be a list, got {tn}") (some "tactics")]

/-- `_is_valid_technique_format`: `T` then exactly four digits in 1000..1999,
optionally a dot and one to three digits in 1..999. -/
def is_valid_technique_format (technique : String) : Bool :=
  match technique.toList with
  | 'T' :: rest =>
    let main := rest.take 4
    let rem := rest.drop 4
    main.length == 4 && main.all Char.isDigit &&
      (let n := digitsToNat main
       1000 ≤ n && n ≤ 1999) &&
      (match rem with
       | [] => true
       | '.' :: sub =>
         !sub.isEmpty && sub.length ≤ 3 && sub.all Char.isDigit &&
           (let sn := digitsToNat sub
            1 ≤ sn && sn ≤ 999)
       | _ => false)
  | _ => false

/-- The per-technique body of `_validate_relevant_techniques`. -/
def checkTechnique (idx : Nat) (technique : Value) : Option Diag :=
  match technique with
  | .vstr t =>
    if is_valid_technique_format t then none
    else
      some (create_error
        (s!"Technique '{t}' has invalid format. " ++
         "Must be 'T####' (e.g., T1078) or 'T####.###' (e.g., T1078.001) " ++
         "where #### is in range 1000-1999")
        (some s!"relevantTechniques[{idx}]"))
  | other =>
    let tn := typeName other
    some (create_error (s!"Technique at index {idx} must be a string, got {tn}")
      (some s!"relevantTechniques[{idx}]"))

/-- `_validate_relevant_techniques`. -/
def validate_relevant_techniques (r : Record) : List Diag :=
  match getVal r "relevantTechniques" with
  | none => []
  | some tv =>
    if !truthyV tv then []
    else
      match tv with
      | .vlist techniques =>
        (techniques.enum.filterMap fun p => checkTechnique p.1 p.2)
      | other =>
        let tn := typeName other
        [create_error (s!"Field 'relevantTechniques' must be a list, got {tn}")
          (some "relevantTechniques")]

/-- `_validate_name_constraints`: absent/falsy or non-string is skipped (the
schema validator owns those); overlength and a trailing period are each one
error. -/
def validate_name_constraints (r : Record) : List Diag :=
  match getVal r "name" with
  | none => []
  | some nv =>
    if !truthyV nv then []
    else
      match nv with
      | .vstr name =>
        let n := name.toList.length
        (if n > MAX_NAME_LENGTH then
          [create_error
            (s!"Field 'name' exceeds maximum length of 50 characters. " ++
             s!"Current length: {n} characters")
            (some "name")]
         else []) ++
        (if name.toList.getLast? == some '.' then
          [create_error "Field 'name' must not end with a period" (some "name")]
         else [])
      | _ => []

/-- `_validate_description_constraints`. -/
def validate_description_constraints (r : Record) : List Diag :=
  match getVal r "description" with
  | none => []
  | some dv =>
    if !truthyV dv then []
    else
      match dv with
      | .vstr description =>
        let n := description.toList.length
        if n > MAX_DESCRIPTION_LENGTH then
          [create_error
            (s!"Field 'description' exceeds maximum length of 255 characters. " ++
             s!"Current length: {n} characters")
            (some "description")]
        else []
      | _ => []

/-- `_validate_query_constraints`. -/
def validate_query_constraints (r : Record) : List Diag :=
  match getVal r "query" with
  | none => []
  | some qv =>
    if !truthyV qv then []
    else
      match qv with
      | .vstr query =>
        let n := query.toList.length
        if n > MAX_QUERY_LENGTH then
          [create_error
            (s!"Field 'query' exceeds maximum length of 10000 characters. " ++
             s!"Current length: {n} characters. " ++
             "Consider moving static lists to watchlists or using KQL functions.")
            (some "query")]
        else []
      | _ => []

/-- The `^\d+\.\d+\.\d+$` semantic-version pattern of `_validate_version`. -/
def versionPatternOk (s : String) : Bool :=
  let parts := splitOnCh '.' s
  parts.length == 3 && parts.all fun p => !p.toList.isEmpty && p.toList.all Char.isDigit

/-- `_validate_version`: an absent, null or falsy version is the
"cannot be empty" error (the `not version` test fires before any
presence distinction); a truthy non-string raises at `.strip()`; a
string not matching `a.b.c` is one error. -/
def validate_version (r : Record) : Except String (List Diag) :=
  match getVal r "version" with
  | none => .ok [create_error "Field 'version' cannot be empty" (some "version")]
  | some vv =>
    if !truthyV vv then
      .ok [create_error "Field 'version' cannot be empty" (some "version")]
    else
      match vv with
      | .vstr version =>
        if (trimStr version).length == 0 then
          .ok [create_error "Field 'version' cannot be empty" (some "version")]
        else if versionPatternOk version then .ok []
        else
          .ok [create_error
            (s!"Field 'version' has invalid format '{version}'. " ++
             "Must follow semantic versioning format 'a.b.c' (e.g., '1.0.0', '1.2.3')")
            (some "version")]
      | other =>
        let tn := typeName other
        .error s!"'{tn}' object has no attribute 'strip'"

/-- `_validate_event_grouping`: absent/falsy is skipped, a non-dict is one
error, an aggregation kind outside the enumeration is one error. -/
def validate_event_grouping (r : Record) : List Diag :=
  match getVal r "eventGroupingSettings" with
  | none => []
  | some eg =>
    if !truthyV eg then []
    else
      match eg with
      | .vdict egd =>
        match getVal egd "aggregationKind" with
        | none => []
        | some ak =>
          if !truthyV ak then []
          else
            let isValid := match ak with
              | .vstr s => VALID_AGGREGATION_KINDS.contains s
              | _ => false
            if isValid then []
            else
              let aks := pyStr ak
              let valid_values := String.intercalate "', '" VALID_AGGREGATION_KINDS
              [create_error
                (s!"Field 'eventGroupingSettings.aggregationKind' has invalid value '{aks}'. " ++
                 s!"Must be one of: '{valid_values}'")
                (some "eventGroupingSettings.aggregationKind")]
      | other =>
        let tn := typeName other
        [create_error
          (s!"Field 'eventGroupingSettings' must be a dictionary, got {tn}")
          (some "eventGroupingSettings")]

/-- The per-entity body of `_validate_entity_mappings_limits`. -/
def checkEntityFieldMappingCount (idx : Nat) (entity : Value) : Option Diag :=
  match entity with
  | .vdict ed =>
    let field_mappings := getVal ed "fieldMappings"
    match field_mappings with
    | some (.vlist fms) =>
      if fms.isEmpty then none
      else if fms.length > MAX_FIELD_MAPPINGS_PER_ENTITY then
        let entity_type := pyStr (getDefault ed "entityType" (.vstr "unknown"))
        let n := fms.length
        some (create_error
          (s!"Entity mapping '{entity_type}' at index {idx} exceeds maximum of " ++
           s!"3 field mappings. " ++
           s!"Current count: {n} field mappings")
          (some s!"entityMappings[{idx}].fieldMappings"))
      else none
    | _ => none
  | _ => none

/-- `_validate_entity_mappings_limits`: absent/falsy or non-list is skipped;
more than ten mappings is one error; each entity with more than three field
mappings is one error. -/
def validate_entity_mappings_limits (r : Record) : List Diag :=
  match getVal r "entityMappings" with
  | none => []
  | some em =>
    if !truthyV em then []
    else
      match em with
      | .vlist entity_mappings =>
        (if entity_mappings.length > MAX_ENTITY_MAPPINGS then
          let n := entity_mappings.length
          [create_error
            (s!"Field 'entityMappings' exceeds maximum of 10 mappings. " ++
             s!"Current count: {n} mappings")
            (some "entityMappings")]
         else []) ++
        (entity_mappings.enum.filterMap fun p => checkEntityFieldMappingCount p.1 p.2)
      | _ => []

/-- `_validate_custom_details`: absent/falsy is skipped, a non-dict is one
error, more than twenty pairs is one error. -/
def validate_custom_details (r : Record) : List Diag :=
  match getVal r "customDetails" with
  | none => []
  | some cd =>
    if !truthyV cd then []
    else
      match cd with
      | .vdict custom_details =>
        if custom_details.length > MAX_CUSTOM_DETAILS then
          let n := custom_details.length
          [create_error
            (s!"Field 'customDetails' exceeds maximum of 20 key/value pairs. " ++
             s!"Current count: {n} pairs")
            (some "customDetails")]
        else []
      | other =>
        let tn := typeName other
        [create_error
          (s!"Field 'customDetails' must be a dictionary, got {tn}")
          (some "customDetails")]

/-- A character of Python's `\w` class, for the ASCII text the alert-format
strings contain. -/
def isWordChar (c : Char) : Bool := c.isAlphanum || c == '_'

/-- One attempt of the `\x7b\x7b\s*\w+\s*\x7d\x7d` template-parameter pattern
at the head of the text: the matched text and the remainder.  The three
character classes are pairwise disjoint, so the greedy match needs no
backtracking. -/
def matchParamAt : List Char → Option (List Char × List Char)
  | '\x7b' :: '\x7b' :: rest =>
    let ws1 := rest.takeWhile isPySpace
    let r1 := rest.dropWhile isPySpace
    let w := r1.takeWhile isWordChar
    let r2 := r1.dropWhile isWordChar
    if w.isEmpty then none
    else
      let ws2 := r2.takeWhile isPySpace
      let r3 := r2.dropWhile isPySpace
      match r3 with
      | '\x7d' :: '\x7d' :: r4 =>
        some ('\x7b' :: '\x7b' :: (ws1 ++ w ++ ws2 ++ ['\x7d', '\x7d']), r4)
      | _ => none
  | _ => none

/-- `re.findall` for the template-parameter pattern: left to right,
non-overlapping; the fuel is the length of the text, enough since every
step consumes at least one character. -/
def findParamsGo : Nat → List Char → List String
  | 0, _ => []
  | _ + 1, [] => []
  | fuel + 1, c :: cs =>
    match matchParamAt (c :: cs) with
    | some (m, rest) => String.mk m :: findParamsGo fuel rest
    | none => findParamsGo fuel cs

/-- All `\x7b\x7b...\x7d\x7d` template parameters of an alert-format string. -/
def findParams (s : String) : List String := findParamsGo s.toList.length s.toList

/-- `param[2:-2]` of a matched parameter. -/
def innerOf (p : String) : List Char := ((p.toList.drop 2).dropLast).dropLast

/-- Whether `inner != inner.strip()`: the parameter carries leading or
trailing whitespace inside the braces. -/
def innerHasSpace (p : String) : Bool :=
  let inner := innerOf p
  inner ≠ ((inner.dropWhile isPySpace).reverse.dropWhile isPySpace).reverse

/-- `_validate_alert_format_field`: non-string is one error; overlength,
too many parameters, and (at most once) a whitespace-padded parameter each
contribute one error. -/
def validate_alert_format_field (value : Value) (field_name : String)
    (max_length : Nat) : List Diag :=
  match value with
  | .vstr s =>
    let n := s.toList.length
    let maxLen := max_length
    (if n > max_length then
      [create_error
        (s!"Field 'alertDetailsOverride.{field_name}' exceeds maximum length of " ++
         s!"{maxLen} characters. Current length: {n} characters")
        (some s!"alertDetailsOverride.{field_name}")]
     else []) ++
    (let parameters := findParams s
     (if parameters.length > MAX_ALERT_PARAMETERS then
       let np := parameters.length
       [create_error
         (s!"Field 'alertDetailsOverride.{field_name}' exceeds maximum of " ++
          s!"3 parameters. Current count: {np} parameters. " ++
          "Parameters must be in format \x7b\x7bcolumnName\x7d\x7d")
         (some s!"alertDetailsOverride.{field_name}")]
      else []) ++
     (match parameters.find? innerHasSpace with
      | some param =>
        [create_error
          (s!"Parameter '{param}' in 'alertDetailsOverride.{field_name}' has leading or trailing " ++
           "whitespace. Must be in format \x7b\x7bcolumnName\x7d\x7d without spaces inside braces")
          (some s!"alertDetailsOverride.{field_name}")]
      | none => []))
  | other =>
    let tn := typeName other
    [create_error
      (s!"Field 'alertDetailsOverride.{field_name}' must be a string, " ++
       s!"got {tn}")
      (some s!"alertDetailsOverride.{field_name}")]

/-- `_validate_alert_details_override`: absent/falsy is skipped, a non-dict
is one error, each truthy format field is checked. -/
def validate_alert_details_override (r : Record) : List Diag :=
  match getVal r "alertDetailsOverride" with
  | none => []
  | some ao =>
    if !truthyV ao then []
    else
      match ao with
      | .vdict aod =>
        (match getVal aod "alertDisplayNameFormat" with
         | none => []
         | some dn =>
           if truthyV dn then
             validate_alert_format_field dn "alertDisplayNameFormat" MAX_ALERT_NAME_LENGTH
           else []) ++
        (match getVal aod "alertDescriptionFormat" with
         | none => []
         | some de =>
           if truthyV de then
             validate_alert_format_field de "alertDescriptionFormat" MAX_ALERT_DESCRIPTION_LENGTH
           else [])
      | other =>
        let tn := typeName other
        [create_error
          (s!"Field 'alertDetailsOverride' must be a dictionary, got {tn}")
          (some "alertDetailsOverride")]

/-- Modelled from the Python standard library: `float(s)` on the finite
decimal forms a duration string can carry — optional surrounding whitespace,
optional sign, digits with at most one point.  Exponents and the special
words are not modelled (no duration string contains them). -/
def pyFloat? (s : String) : Option ℚ :=
  let cs := (trimStr s).toList
  let signed : ℚ × List Char :=
    match cs with
    | '+' :: rest => (1, rest)
    | '-' :: rest => (-1, rest)
    | rest => (1, rest)
  let ip := signed.2.takeWhile Char.isDigit
  let r1 := signed.2.dropWhile Char.isDigit
  match r1 with
  | [] => if ip.isEmpty then none else some (signed.1 * (digitsToNat ip : ℚ))
  | '.' :: fp =>
    if fp.all Char.isDigit && !(ip.isEmpty && fp.isEmpty) then
      some (signed.1 *
        ((digitsToNat ip : ℚ) + (digitsToNat fp : ℚ) / ((10 : ℚ) ^ fp.length)))
    else none
  | _ => none

/-- `_parse_duration_to_hours`: hours from `<number><unit>`, or the
`ValueError` message the source raises. -/
def parse_duration_to_hours (duration : Value) : Except String ℚ :=
  match duration with
  | .vstr d0 =>
    let d := lowerStr (trimStr d0)
    if d.toList.isEmpty then .error "Duration cannot be empty"
    else
      let cs := d.toList
      let numStr := String.mk cs.dropLast
      let conv (mult : ℚ) : Except String ℚ :=
        match pyFloat? numStr with
        | some q => .ok (q * mult)
        | none => .error s!"could not convert string to float: '{numStr}'"
      match cs.getLast? with
      | some 'h' => conv 1
      | some 'd' => conv 24
      | some 'm' => conv (1 / 60)
      | _ => .error "Duration must end with 'm', 'h', or 'd'"
  | _ => .error "Duration must be a string"

/-- `_validate_grouping_configuration`: both configuration levels default to
an empty dict when the key is missing, so an absent `incidentConfiguration`
is silently skipped; when grouping is enabled the lookback duration is
required and bounded to 3..24 hours; a malformed duration's `ValueError`
is caught and becomes one error. -/
def validate_grouping_configuration (r : Record) : List Diag :=
  let lookbackField := "incidentConfiguration.groupingConfiguration.lookbackDuration"
  match getDefault r "incidentConfiguration" (.vdict []) with
  | .vdict icd =>
    match getDefault icd "groupingConfiguration" (.vdict []) with
    | .vdict gcd =>
      if truthy (getVal gcd "enabled") then
        match getVal gcd "lookbackDuration" with
        | none =>
          [create_error "When grouping is enabled, lookbackDuration must be specified"
            (some lookbackField)]
        | some lookback =>
          if !truthyV lookback then
            [create_error "When grouping is enabled, lookbackDuration must be specified"
              (some lookbackField)]
          else
            let ls := pyStr lookback
            match parse_duration_to_hours lookback with
            | .ok hours =>
              if hours < 3 then
                [create_error
                  (s!"lookbackDuration '{ls}' is too short. Minimum duration is 3h")
                  (some lookbackField)]
              else if hours > 24 then
                [create_error
                  (s!"lookbackDuration '{ls}' is too long. Maximum duration is 24h")
                  (some lookbackField)]
              else []
            | .error e =>
              [create_error (s!"Invalid lookbackDuration format: {e}")
                (some lookbackField)]
      else []
    | _ =>
      [create_error "Field 'groupingConfiguration' must be a dictionary"
        (some "incidentConfiguration.groupingConfiguration")]
  | _ =>
    [create_error "Field 'incidentConfiguration' must be a dictionary"
      (some "incidentConfiguration")]

/-- `SentinelConstraintsValidator.validate`: all constraint groups in the
source's order, their diagnostics concatenated; an exception in any group
propagates. -/
def validate (rule_data : Record) : Except String (List Diag) := do
  let e1 ← validate_kind rule_data
  let e2 ← validate_severity rule_data
  let e3 ← validate_trigger_operator rule_data
  let e4 := validate_trigger_threshold rule_data
  let e5 := validate_tactics rule_data
  let e6 := validate_relevant_techniques rule_data
  let e7 := validate_name_constraints rule_data
  let e8 := validate_description_constraints rule_data
  let e9 := validate_query_constraints rule_data
  let e10 ← validate_version rule_data
  let e11 := validate_event_grouping rule_data
  let e12 := validate_entity_mappings_limits rule_data
  let e13 := validate_custom_details rule_data
  let e14 := validate_alert_details_override rule_data
  let e15 := validate_grouping_configuration rule_data
  .ok (e1 ++ e2 ++ e3 ++ e4 ++ e5 ++ e6 ++ e7 ++ e8 ++ e9 ++ e10 ++ e11 ++ e12 ++
       e13 ++ e14 ++ e15)

end SentinelConstraintsValidator

/-! ## Orchestrator (`linter.py`) -/

/-- One entry of a `ValidationResult`'s error or warning list, as
`add_error`/`add_warning` store it. -/
structure RDiag where
  validator : String
  severity : String
  message : String
  field : Option String
  deriving Repr, DecidableEq

/-- `ValidationResult`: per-record outcome container. -/
structure ValidationResult where
  file_path : String
  errors : List RDiag
  warnings : List RDiag
  passed : Bool
  deriving Repr, DecidableEq

/-- `ValidationResult.__init__`. -/
def ValidationResult.init (file_path : String) : ValidationResult :=
  ⟨file_path, [], [], true⟩

/-- `ValidationResult.add_error`: append and mark failed. -/
def ValidationResult.add_error (r : ValidationResult)
    (validator_name message : String) (field : Option String) : ValidationResult :=
  { r with errors := r.errors ++ [⟨validator_name, "error", message, field⟩],
           passed := false }

/-- `ValidationResult.add_warning`: append only. -/
def ValidationResult.add_warning (r : ValidationResult)
    (validator_name message : String) (field : Option String) : ValidationResult :=
  { r with warnings := r.warnings ++ [⟨validator_name, "warning", message, field⟩] }

/-- The polymorphic validator contract the orchestrator holds: a display name
and a validate operation; a raised exception is the `Except` error side. -/
structure Validator where
  validator_name : String
  run : FileSys → Record → String → List String → Except String (List Diag)

/-- The body of the per-diagnostic loop of `SentinelLinter.validate_file`:
read severity with the `'error'` default and lowercase it, read the message
with its default, then append a warning exactly when the severity is
`'warning'` and an error otherwise. -/
def classifyStep (validator_name : String) (r : ValidationResult) (d : Diag) :
    ValidationResult :=
  let severity := lowerStr (d.severity.getD "error")
  let message := d.message.getD "Unknown error"
  if severity == "warning" then r.add_warning validator_name message d.field
  else r.add_error validator_name message d.field

/-- The per-validator boundary inside `SentinelLinter.validate_file`: a crash
becomes one error naming the validator, otherwise each returned diagnostic is
classified by `classifyStep`. -/
def apply_validator (fs : FileSys) (rule_data : Record) (file_path : String)
    (all_yaml_files : List String) (res : ValidationResult) (v : Validator) :
    ValidationResult :=
  match v.run fs rule_data file_path all_yaml_files with
  | .error e => res.add_error v.validator_name s!"Validator crashed: {e}" none
  | .ok ds => ds.foldl (classifyStep v.validator_name) res

/-- `SentinelLinter.validate_file`: load the record, then run every validator
in order over it. -/
def validate_file (fs : FileSys) (validators : List Validator) (file_path : String)
    (all_yaml_files : List String) : ValidationResult :=
  match load_yaml_file fs file_path with
  | .error e => (ValidationResult.init file_path).add_error "YAML Parser" e none
  | .ok rule_data =>
    validators.foldl (apply_validator fs rule_data file_path all_yaml_files)
      (ValidationResult.init file_path)

/-- The GUID validator as the orchestrator holds it. -/
def guidValidatorV : Validator :=
  ⟨"GUID Validator", fun fs rd p fl => .ok (GuidValidator.validate fs rd p fl)⟩

/-- The schema validator as the orchestrator holds it. -/
def schemaValidatorV : Validator :=
  ⟨"Schema Validator", fun _ rd _ _ => .ok (SchemaValidator.validate rd)⟩

/-- The entity validator as the orchestrator holds it. -/
def entityValidatorV : Validator :=
  ⟨"Entity Validator", fun _ rd _ _ => EntityValidator.validate rd⟩

/-- The timing validator as the orchestrator holds it. -/
def timingValidatorV : Validator :=
  ⟨"Timing Validator", fun _ rd _ _ => .ok (TimingValidator.validate rd)⟩

/-- The Sentinel constraints validator wrapped in the contract.  It exists in
the code base but `SentinelLinter.__init__` never appends it to the
validator list. -/
def sentinelConstraintsValidatorV : Validator :=
  ⟨"Sentinel Constraints Validator", fun _ rd _ _ => SentinelConstraintsValidator.validate rd⟩

/-- `SentinelLinter.__init__`: the ordered validator list.  The four
always-enabled validators, then the KQL validator when its construction
succeeded (it needs the external .NET parsing capability, so it enters the
model as a parameter; `none` covers both the disabled and the
construction-failed case, which the source logs and swallows). -/
def linter_validators (kql_validator : Option Validator) : List Validator :=
  [guidValidatorV, schemaValidatorV, entityValidatorV, timingValidatorV] ++
    kql_validator.toList

/-! ## The outcome container's operation sequences (for the pass/fail
invariant). -/

/-- One mutation of a `ValidationResult`: an `add_error` or `add_warning`
call with its arguments. -/
inductive ResultOp where
  | addError (validator_name message : String) (field : Option String)
  | addWarning (validator_name message : String) (field : Option String)

/-- Apply one mutation. -/
def applyOp (r : ValidationResult) : ResultOp → ValidationResult
  | .addError v m f => r.add_error v m f
  | .addWarning v m f => r.add_warning v m f

/-- Apply a call sequence left to right. -/
def applyOps (r : ValidationResult) (ops : List ResultOp) : ValidationResult :=
  ops.foldl applyOp r

/-- Whether a call is an `add_error`. -/
def ResultOp.isError : ResultOp → Bool
  | .addError _ _ _ => true
  | .addWarning _ _ _ => false

/-! ## Structure of the orchestrator's aggregation -/

/-- The outcome entry `classifyStep` appends for one diagnostic. -/
def classifyDiag (validator_name : String) (d : Diag) : RDiag :=
  if lowerStr (d.severity.getD "error") == "warning" then
    ⟨validator_name, "warning", d.message.getD "Unknown error", d.field⟩
  else
    ⟨validator_name, "error", d.message.getD "Unknown error", d.field⟩

/-- Every entry one validator contributes to the outcome, in order: one crash
error, or its classified diagnostics. -/
def validatorEntries (fs : FileSys) (rd : Record) (p : String) (fl : List String)
    (v : Validator) : List RDiag :=
  match v.run fs rd p fl with
  | .error e => [⟨v.validator_name, "error", s!"Validator crashed: {e}", none⟩]
  | .ok ds => ds.map (classifyDiag v.validator_name)

/-- An outcome entry bound for the error list. -/
def isErrorEntry (d : RDiag) : Bool := d.severity == "error"

/-- An outcome entry bound for the warning list. -/
def isWarningEntry (d : RDiag) : Bool := d.severity == "warning"

lemma isEmpty_append_bool {α : Type} (a b : List α) :
    (a ++ b).isEmpty = (a.isEmpty && b.isEmpty) := by
  cases a <;> simp

lemma classifyStep_eq (vname : String) (r : ValidationResult) (d : Diag) :
    classifyStep vname r d =
      if isWarningEntry (classifyDiag vname d) then
        { r with warnings := r.warnings ++ [classifyDiag vname d] }
      else
        { r with errors := r.errors ++ [classifyDiag vname d], passed := false } := by
  unfold classifyStep classifyDiag isWarningEntry ValidationResult.add_warning
    ValidationResult.add_error
  cases h : lowerStr (d.severity.getD "error") == "warning" <;> simp [h]

lemma classifyDiag_not_both (vname : String) (d : Diag) :
    isErrorEntry (classifyDiag vname d) = !isWarningEntry (classifyDiag vname d) := by
  unfold classifyDiag isErrorEntry isWarningEntry
  cases h : lowerStr (d.severity.getD "error") == "warning" <;> simp [h]

lemma foldl_classifyStep (vname : String) (ds : List Diag) (res : ValidationResult) :
    ds.foldl (classifyStep vname) res =
      ⟨res.file_path,
       res.errors ++ (ds.map (classifyDiag vname)).filter isErrorEntry,
       res.warnings ++ (ds.map (classifyDiag vname)).filter isWarningEntry,
       res.passed && ((ds.map (classifyDiag vname)).filter isErrorEntry).isEmpty⟩ := by
  induction ds generalizing res with
  | nil => simp
  | cons d ds ih =>
    rw [List.foldl_cons, classifyStep_eq]
    have hnb := classifyDiag_not_both vname d
    cases h : isWarningEntry (classifyDiag vname d) with
    | true =>
      rw [if_pos (by simp [h]), ih]
      have herr : isErrorEntry (classifyDiag vname d) = false := by
        rw [hnb, h]; rfl
      simp [herr, h]
    | false =>
      rw [if_neg (by simp [h]), ih]
      have herr : isErrorEntry (classifyDiag vname d) = true := by
        rw [hnb, h]; rfl
      simp [herr, h]

lemma apply_validator_eq (fs : FileSys) (rd : Record) (p : String) (fl : List String)
    (res : ValidationResult) (v : Validator) :
    apply_validator fs rd p fl res v =
      ⟨res.file_path,
       res.errors ++ (validatorEntries fs rd p fl v).filter isErrorEntry,
       res.warnings ++ (validatorEntries fs rd p fl v).filter isWarningEntry,
       res.passed && ((validatorEntries fs rd p fl v).filter isErrorEntry).isEmpty⟩ := by
  unfold apply_validator validatorEntries
  cases h : v.run fs rd p fl with
  | error e =>
    simp [ValidationResult.add_error, isErrorEntry, isWarningEntry, List.filter]
  | ok ds => exact foldl_classifyStep _ ds res

lemma foldl_apply_validator (fs : FileSys) (rd : Record) (p : String)
    (fl : List String) (validators : List Validator) (res : ValidationResult) :
    validators.foldl (apply_validator fs rd p fl) res =
      ⟨res.file_path,
       res.errors ++
         (validators.map fun v => (validatorEntries fs rd p fl v).filter isErrorEntry).flatten,
       res.warnings ++
         (validators.map fun v => (validatorEntries fs rd p fl v).filter isWarningEntry).flatten,
       res.passed &&
         ((validators.map fun v =>
            (validatorEntries fs rd p fl v).filter isErrorEntry).flatten).isEmpty⟩ := by
  induction validators generalizing res with
  | nil => simp
  | cons v vs ih =>
    rw [List.foldl_cons, apply_validator_eq, ih]
    simp [isEmpty_append_bool, Bool.and_assoc]

/-- The shape of a per-record outcome when the record loads: one list per
validator, concatenated in the orchestrator's order, errors and warnings
split by classified severity, the pass flag the emptiness of the errors. -/
lemma validate_file_ok (fs : FileSys) (validators : List Validator) (p : String)
    (fl : List String) (rd : Record) (h : load_yaml_file fs p = .ok rd) :
    validate_file fs validators p fl =
      ⟨p,
       (validators.map fun v => (validatorEntries fs rd p fl v).filter isErrorEntry).flatten,
       (validators.map fun v => (validatorEntries fs rd p fl v).filter isWarningEntry).flatten,
       ((validators.map fun v =>
          (validatorEntries fs rd p fl v).filter isErrorEntry).flatten).isEmpty⟩ := by
  simp only [validate_file, h]
  rw [foldl_apply_validator]
  simp [ValidationResult.init]

lemma validatorEntries_name (fs : FileSys) (rd : Record) (p : String)
    (fl : List String) (v : Validator) :
    ∀ d ∈ validatorEntries fs rd p fl v, d.validator = v.validator_name := by
  intro d hd
  unfold validatorEntries at hd
  cases h : v.run fs rd p fl with
  | error e => rw [h] at hd; simp at hd; rw [hd]
  | ok ds =>
    rw [h] at hd
    rcases List.mem_map.mp hd with ⟨x, _, hx⟩
    rw [← hx]
    unfold classifyDiag
    cases hw : lowerStr (x.severity.getD "error") == "warning" <;> simp [hw]

/-- The error entry an `add_error` call appends; `none` for `add_warning`. -/
def errEntryOf : ResultOp → Option RDiag
  | .addError v m f => some ⟨v, "error", m, f⟩
  | .addWarning _ _ _ => none

lemma applyOps_errors (ops : List ResultOp) (r : ValidationResult) :
    (applyOps r ops).errors = r.errors ++ ops.filterMap errEntryOf := by
  induction ops generalizing r with
  | nil => simp [applyOps]
  | cons op ops ih =>
    show (applyOps (applyOp r op) ops).errors = r.errors ++ (op :: ops).filterMap errEntryOf
    rw [ih]
    cases op with
    | addError v m f =>
      simp [applyOp, ValidationResult.add_error, errEntryOf]
    | addWarning v m f =>
      simp [applyOp, ValidationResult.add_warning, errEntryOf]

lemma applyOps_passed (ops : List ResultOp) (r : ValidationResult)
    (h : r.passed = r.errors.isEmpty) :
    (applyOps r ops).passed = (applyOps r ops).errors.isEmpty := by
  induction ops generalizing r with
  | nil => exact h
  | cons op ops ih =>
    show (applyOps (applyOp r op) ops).passed = (applyOps (applyOp r op) ops).errors.isEmpty
    apply ih
    cases op with
    | addError v m f => simp [applyOp, ValidationResult.add_error]
    | addWarning v m f =>
      simpa [applyOp, ValidationResult.add_warning] using h

/-- C9: for every sequence of `add_error` and `add_warning` calls on a
freshly constructed per-record outcome, the pass flag equals the negation of
"the error list is non-empty" after every call — and it is false exactly
when some call of the sequence was an `add_error`. -/
theorem claim_C9_passed_invariant (p : String) (ops : List ResultOp) :
    ((applyOps (ValidationResult.init p) ops).passed
       = ((applyOps (ValidationResult.init p) ops).errors).isEmpty)
    ∧ (((applyOps (ValidationResult.init p) ops).passed = false)
       ↔ ∃ op ∈ ops, ResultOp.isError op) := by
  have hinv := applyOps_passed ops (ValidationResult.init p) rfl
  refine ⟨hinv, ?_⟩
  rw [hinv, applyOps_errors]
  simp only [ValidationResult.init, List.nil_append]
  constructor
  · intro h
    by_contra hall
    push_neg at hall
    have : ops.filterMap errEntryOf = [] := by
      apply List.filterMap_eq_nil_iff.mpr
      intro op hop
      cases op with
      | addError v m f =>
        have hfalse := hall _ hop
        simp [ResultOp.isError] at hfalse
      | addWarning v m f => rfl
    rw [this] at h
    simp at h
  · intro ⟨op, hop, hisErr⟩
    cases op with
    | addWarning v m f => simp [ResultOp.isError] at hisErr
    | addError v m f =>
      cases hfm : ops.filterMap errEntryOf with
      | nil =>
        have := List.filterMap_eq_nil_iff.mp hfm _ hop
        simp [errEntryOf] at this
      | cons x xs => simp

/-- C10: a diagnostic returned to the orchestrator is recorded as a warning
exactly when its severity value lowercases to `warning`; a missing severity
key (read with the `error` default) or any other value makes it an error and
marks the record failed. -/
theorem claim_C10_severity_classification
    (fs : FileSys) (p : String) (fl : List String) (rd : Record)
    (v : Validator) (d : Diag)
    (hload : load_yaml_file fs p = .ok rd)
    (hrun : v.run fs rd p fl = .ok [d]) :
    ((lowerStr (d.severity.getD "error") = "warning") →
        validate_file fs [v] p fl =
          ⟨p, [], [⟨v.validator_name, "warning", d.message.getD "Unknown error", d.field⟩],
           true⟩)
    ∧ ((lowerStr (d.severity.getD "error") ≠ "warning") →
        validate_file fs [v] p fl =
          ⟨p, [⟨v.validator_name, "error", d.message.getD "Unknown error", d.field⟩], [],
           false⟩) := by
  rw [validate_file_ok fs [v] p fl rd hload]
  constructor
  · intro h
    simp [validatorEntries, hrun, classifyDiag, h, isErrorEntry, isWarningEntry]
  · intro h
    simp [validatorEntries, hrun, classifyDiag, h, isErrorEntry, isWarningEntry]

/-- Witness for C10: a diagnostic with severity `info` is recorded as an
error and fails the record. -/
theorem claim_C10_witness :
    validate_file [("r.yaml", .ok ([] : Record))]
        [⟨"Custom Validator", fun _ _ _ _ => .ok [⟨some "info", some "custom message", none⟩]⟩]
        "r.yaml" [] =
      ⟨"r.yaml", [⟨"Custom Validator", "error", "custom message", none⟩], [], false⟩ := by
  have h := claim_C10_severity_classification [("r.yaml", .ok ([] : Record))] "r.yaml" []
    ([] : Record)
    ⟨"Custom Validator", fun _ _ _ _ => .ok [⟨some "info", some "custom message", none⟩]⟩
    ⟨some "info", some "custom message", none⟩ rfl rfl
  exact h.2 (by decide)

lemma mem_entries_flatten_name (fs : FileSys) (rd : Record) (p : String)
    (fl : List String) (pred : RDiag → Bool) (vl : List Validator) (d : RDiag)
    (hd : d ∈ (vl.map fun v => (validatorEntries fs rd p fl v).filter pred).flatten) :
    ∃ w ∈ vl, d.validator = w.validator_name := by
  rcases List.mem_flatten.mp hd with ⟨l, hl, hdl⟩
  rcases List.mem_map.mp hl with ⟨w, hw, rfl⟩
  exact ⟨w, hw, validatorEntries_name _ _ _ _ _ d (List.mem_of_mem_filter hdl)⟩

/-- C6: a validator whose validate call raises contributes exactly one error
attributed to its name; the remaining validators' diagnostics (errors and
warnings) are exactly those of the run without the crashing validator, so
they all still run and the record still yields an outcome. -/
theorem claim_C6_isolation
    (fs : FileSys) (p : String) (fl : List String) (rd : Record)
    (vs ws : List Validator) (v : Validator) (e : String)
    (hload : load_yaml_file fs p = .ok rd)
    (hcrash : v.run fs rd p fl = .error e)
    (hname : ∀ w ∈ vs ++ ws, w.validator_name ≠ v.validator_name) :
    (((validate_file fs (vs ++ [v] ++ ws) p fl).errors.filter
        (fun d => d.validator == v.validator_name)).length = 1)
    ∧ ((validate_file fs (vs ++ [v] ++ ws) p fl).errors.filter
        (fun d => d.validator != v.validator_name)
        = (validate_file fs (vs ++ ws) p fl).errors)
    ∧ ((validate_file fs (vs ++ [v] ++ ws) p fl).warnings
        = (validate_file fs (vs ++ ws) p fl).warnings) := by
  have hVerr : (validatorEntries fs rd p fl v).filter isErrorEntry
      = [⟨v.validator_name, "error", s!"Validator crashed: {e}", none⟩] := by
    simp [validatorEntries, hcrash, isErrorEntry, List.filter]
  have hVwarn : (validatorEntries fs rd p fl v).filter isWarningEntry = [] := by
    simp [validatorEntries, hcrash, isWarningEntry, List.filter]
  have hA : ∀ d ∈ (vs.map fun w => (validatorEntries fs rd p fl w).filter isErrorEntry).flatten,
      d.validator ≠ v.validator_name := by
    intro d hd
    rcases mem_entries_flatten_name fs rd p fl _ vs d hd with ⟨w, hw, hweq⟩
    rw [hweq]
    exact hname w (List.mem_append_left _ hw)
  have hB : ∀ d ∈ (ws.map fun w => (validatorEntries fs rd p fl w).filter isErrorEntry).flatten,
      d.validator ≠ v.validator_name := by
    intro d hd
    rcases mem_entries_flatten_name fs rd p fl _ ws d hd with ⟨w, hw, hweq⟩
    rw [hweq]
    exact hname w (List.mem_append_right _ hw)
  have hErrSplit : (validate_file fs (vs ++ [v] ++ ws) p fl).errors
      = (vs.map fun w => (validatorEntries fs rd p fl w).filter isErrorEntry).flatten
        ++ ([⟨v.validator_name, "error", s!"Validator crashed: {e}", none⟩]
            ++ (ws.map fun w => (validatorEntries fs rd p fl w).filter isErrorEntry).flatten) := by
    rw [validate_file_ok fs (vs ++ [v] ++ ws) p fl rd hload]
    simp [List.map_append, List.flatten_append, hVerr]
  have hWarnSplit : (validate_file fs (vs ++ [v] ++ ws) p fl).warnings
      = (vs.map fun w => (validatorEntries fs rd p fl w).filter isWarningEntry).flatten
        ++ (ws.map fun w => (validatorEntries fs rd p fl w).filter isWarningEntry).flatten := by
    rw [validate_file_ok fs (vs ++ [v] ++ ws) p fl rd hload]
    simp [List.map_append, List.flatten_append, hVwarn]
  have hErrWithout : (validate_file fs (vs ++ ws) p fl).errors
      = (vs.map fun w => (validatorEntries fs rd p fl w).filter isErrorEntry).flatten
        ++ (ws.map fun w => (validatorEntries fs rd p fl w).filter isErrorEntry).flatten := by
    rw [validate_file_ok fs (vs ++ ws) p fl rd hload]
    simp [List.map_append, List.flatten_append]
  have hWarnWithout : (validate_file fs (vs ++ ws) p fl).warnings
      = (vs.map fun w => (validatorEntries fs rd p fl w).filter isWarningEntry).flatten
        ++ (ws.map fun w => (validatorEntries fs rd p fl w).filter isWarningEntry).flatten := by
    rw [validate_file_ok fs (vs ++ ws) p fl rd hload]
    simp [List.map_append, List.flatten_append]
  have fA : ((vs.map fun w => (validatorEntries fs rd p fl w).filter isErrorEntry).flatten.filter
      (fun d => d.validator == v.validator_name)) = [] :=
    List.filter_eq_nil_iff.mpr (by intro a ha; simpa using hA a ha)
  have fB : ((ws.map fun w => (validatorEntries fs rd p fl w).filter isErrorEntry).flatten.filter
      (fun d => d.validator == v.validator_name)) = [] :=
    List.filter_eq_nil_iff.mpr (by intro a ha; simpa using hB a ha)
  have gA : ((vs.map fun w => (validatorEntries fs rd p fl w).filter isErrorEntry).flatten.filter
      (fun d => d.validator != v.validator_name))
      = (vs.map fun w => (validatorEntries fs rd p fl w).filter isErrorEntry).flatten :=
    List.filter_eq_self.mpr (by intro a ha; simpa using hA a ha)
  have gB : ((ws.map fun w => (validatorEntries fs rd p fl w).filter isErrorEntry).flatten.filter
      (fun d => d.validator != v.validator_name))
      = (ws.map fun w => (validatorEntries fs rd p fl w).filter isErrorEntry).flatten :=
    List.filter_eq_self.mpr (by intro a ha; simpa using hB a ha)
  refine ⟨?_, ?_, ?_⟩
  · rw [hErrSplit]
    simp [List.filter_append, fA, fB, List.filter]
  · rw [hErrSplit, hErrWithout]
    simp [List.filter_append, gA, gB, List.filter]
  · rw [hWarnSplit, hWarnWithout]

/-- Witness for C6: with a crashing validator between two healthy ones, the
outcome holds exactly one `Validator crashed` error attributed to it, and the
other validators' diagnostics are untouched. -/
theorem claim_C6_witness :
    (((validate_file [("r.yaml", .ok ([] : Record))]
        ([⟨"First", fun _ _ _ _ => .ok [create_error "a" none]⟩] ++
         [⟨"Broken", fun _ _ _ _ => .error "boom"⟩] ++
         [⟨"Last", fun _ _ _ _ => .ok [create_warning "b" none]⟩])
        "r.yaml" []).errors.filter (fun d => d.validator == "Broken")).length = 1)
    ∧ ((validate_file [("r.yaml", .ok ([] : Record))]
        ([⟨"First", fun _ _ _ _ => .ok [create_error "a" none]⟩] ++
         [⟨"Broken", fun _ _ _ _ => .error "boom"⟩] ++
         [⟨"Last", fun _ _ _ _ => .ok [create_warning "b" none]⟩])
        "r.yaml" []).errors.filter (fun d => d.validator != "Broken")
        = (validate_file [("r.yaml", .ok ([] : Record))]
            ([⟨"First", fun _ _ _ _ => .ok [create_error "a" none]⟩] ++
             [⟨"Last", fun _ _ _ _ => .ok [create_warning "b" none]⟩])
            "r.yaml" []).errors)
    ∧ ((validate_file [("r.yaml", .ok ([] : Record))]
        ([⟨"First", fun _ _ _ _ => .ok [create_error "a" none]⟩] ++
         [⟨"Broken", fun _ _ _ _ => .error "boom"⟩] ++
         [⟨"Last", fun _ _ _ _ => .ok [create_warning "b" none]⟩])
        "r.yaml" []).warnings
        = (validate_file [("r.yaml", .ok ([] : Record))]
            ([⟨"First", fun _ _ _ _ => .ok [create_error "a" none]⟩] ++
             [⟨"Last", fun _ _ _ _ => .ok [create_warning "b" none]⟩])
            "r.yaml" []).warnings) :=
  claim_C6_isolation [("r.yaml", .ok ([] : Record))] "r.yaml" [] []
    [⟨"First", fun _ _ _ _ => .ok [create_error "a" none]⟩]
    [⟨"Last", fun _ _ _ _ => .ok [create_warning "b" none]⟩]
    ⟨"Broken", fun _ _ _ _ => .error "boom"⟩ "boom" rfl rfl
    (by intro w hw; fin_cases hw <;> decide)

/-- C1 counterexample: the orchestrator registers four validators (plus the
optional query-language one), not seven; the Sentinel constraints validator
and the ASIM naming validator are never in its list. -/
theorem claim_C1_counterexample :
    ((linter_validators none).map Validator.validator_name
       = ["GUID Validator", "Schema Validator", "Entity Validator", "Timing Validator"])
    ∧ "Sentinel Constraints Validator" ∉
        (linter_validators none).map Validator.validator_name
    ∧ "ASIM Field Validator" ∉ (linter_validators none).map Validator.validator_name
    ∧ (linter_validators none).length ≠ 7 := by
  refine ⟨rfl, by decide, by decide, by decide⟩

/-- C1 amended: the registered validators run strictly sequentially in the
fixed order identifier, schema/type, entity-mapping, timing, then the
query-language validator when available; each record's outcome is exactly
their per-validator contributions concatenated in that order.  The Sentinel
constraints validator and the naming validator are implemented but never
registered, so they contribute nothing. -/
theorem claim_C1_amended
    (kql : Option Validator) (fs : FileSys) (p : String) (fl : List String)
    (rd : Record) (hload : load_yaml_file fs p = .ok rd) :
    ((linter_validators kql).map Validator.validator_name
       = ["GUID Validator", "Schema Validator", "Entity Validator", "Timing Validator"]
           ++ (kql.map Validator.validator_name).toList)
    ∧ ((validate_file fs (linter_validators kql) p fl).errors
        = ((linter_validators kql).map fun v =>
            (validatorEntries fs rd p fl v).filter isErrorEntry).flatten)
    ∧ ((validate_file fs (linter_validators kql) p fl).warnings
        = ((linter_validators kql).map fun v =>
            (validatorEntries fs rd p fl v).filter isWarningEntry).flatten) := by
  refine ⟨by cases kql <;> rfl, ?_, ?_⟩
  · rw [validate_file_ok _ _ _ _ _ hload]
  · rw [validate_file_ok _ _ _ _ _ hload]

/-- Witness for C1's amended statement, at a concrete one-record run without
the query-language validator. -/
theorem claim_C1_witness :
    ((linter_validators none).map Validator.validator_name
       = ["GUID Validator", "Schema Validator", "Entity Validator", "Timing Validator"]
           ++ ((none : Option Validator).map Validator.validator_name).toList)
    ∧ ((validate_file [("r.yaml", .ok ([] : Record))] (linter_validators none)
          "r.yaml" []).errors
        = ((linter_validators none).map fun v =>
            (validatorEntries [("r.yaml", .ok ([] : Record))] ([] : Record)
              "r.yaml" [] v).filter isErrorEntry).flatten)
    ∧ ((validate_file [("r.yaml", .ok ([] : Record))] (linter_validators none)
          "r.yaml" []).warnings
        = ((linter_validators none).map fun v =>
            (validatorEntries [("r.yaml", .ok ([] : Record))] ([] : Record)
              "r.yaml" [] v).filter isWarningEntry).flatten) :=
  claim_C1_amended none [("r.yaml", .ok ([] : Record))] "r.yaml" [] ([] : Record) rfl

/-- C2: evaluation at the failing input.  A boolean stored under the
integer-typed `triggerThreshold` path satisfies the type check (`isinstance`
treats `bool` as a subclass of `int`), so the schema validator emits no
diagnostic at all for that field — against the claim; the converse direction
(an integer against a boolean expectation) does error as claimed. -/
theorem claim_C2_code_eval :
    isinstance (.vbool true) .pint = true
    ∧ ((EXPECTED_TYPES.find? fun ft => ft.1 == "triggerThreshold").map (·.2)
        = some .pint)
    ∧ SchemaValidator.validate_field_type [("triggerThreshold", .vbool true)]
        "triggerThreshold" .pint = none
    ∧ (SchemaValidator.validate [("triggerThreshold", .vbool true)]).filter
        (fun d => d.field == some "triggerThreshold") = []
    ∧ isinstance (.vint 5) .pbool = false
    ∧ SchemaValidator.validate_field_type [("enabled", .vint 5)] "enabled" .pbool
        = some (create_error
            "Field 'enabled' has incorrect type. Expected bool, got int"
            (some "enabled")) := by
  refine ⟨rfl, rfl, rfl, rfl, rfl, rfl⟩

/-- C3 counterexample: on the empty record, the `version` group's governing
field is absent and `version` is not in the required-field list, yet the
Sentinel constraints validator emits a `cannot be empty` error for it. -/
theorem claim_C3_counterexample :
    "version" ∉ REQUIRED_FIELDS
    ∧ getRaw ([] : Record) "version" = none
    ∧ SentinelConstraintsValidator.validate ([] : Record) =
        .ok [create_error "Field 'kind' cannot be empty" (some "kind"),
             create_error "Field 'severity' cannot be empty" (some "severity"),
             create_error "Field 'triggerOperator' cannot be empty" (some "triggerOperator"),
             create_error "Field 'version' cannot be empty" (some "version")] := by
  refine ⟨by decide, rfl, rfl⟩

/-- C3 amended: every constraint group whose governing field is not in the
required-field list skips silently when that field is absent — except the
version group, which reports `cannot be empty` on an absent version even
though `version` is not required.  (The enum groups kind/severity/
triggerOperator also error on absence, but their fields are required.) -/
theorem claim_C3_amended (r : Record) :
    ("tactics" ∉ REQUIRED_FIELDS ∧ "relevantTechniques" ∉ REQUIRED_FIELDS
      ∧ "eventGroupingSettings" ∉ REQUIRED_FIELDS ∧ "entityMappings" ∉ REQUIRED_FIELDS
      ∧ "customDetails" ∉ REQUIRED_FIELDS ∧ "alertDetailsOverride" ∉ REQUIRED_FIELDS
      ∧ "incidentConfiguration" ∉ REQUIRED_FIELDS ∧ "version" ∉ REQUIRED_FIELDS)
    ∧ (getRaw r "tactics" = none →
        SentinelConstraintsValidator.validate_tactics r = [])
    ∧ (getRaw r "relevantTechniques" = none →
        SentinelConstraintsValidator.validate_relevant_techniques r = [])
    ∧ (getRaw r "eventGroupingSettings" = none →
        SentinelConstraintsValidator.validate_event_grouping r = [])
    ∧ (getRaw r "entityMappings" = none →
        SentinelConstraintsValidator.validate_entity_mappings_limits r = [])
    ∧ (getRaw r "customDetails" = none →
        SentinelConstraintsValidator.validate_custom_details r = [])
    ∧ (getRaw r "alertDetailsOverride" = none →
        SentinelConstraintsValidator.validate_alert_details_override r = [])
    ∧ (getRaw r "incidentConfiguration" = none →
        SentinelConstraintsValidator.validate_grouping_configuration r = [])
    ∧ (getRaw r "version" = none →
        SentinelConstraintsValidator.validate_version r
          = .ok [create_error "Field 'version' cannot be empty" (some "version")]) := by
  refine ⟨⟨by decide, by decide, by decide, by decide, by decide, by decide, by decide,
    by decide⟩, ?_, ?_, ?_, ?_, ?_, ?_, ?_, ?_⟩
  · intro h
    simp [SentinelConstraintsValidator.validate_tactics, getVal, h]
  · intro h
    simp [SentinelConstraintsValidator.validate_relevant_techniques, getVal, h]
  · intro h
    simp [SentinelConstraintsValidator.validate_event_grouping, getVal, h]
  · intro h
    simp [SentinelConstraintsValidator.validate_entity_mappings_limits, getVal, h]
  · intro h
    simp [SentinelConstraintsValidator.validate_custom_details, getVal, h]
  · intro h
    simp [SentinelConstraintsValidator.validate_alert_details_override, getVal, h]
  · intro h
    have hd : getDefault r "incidentConfiguration" (.vdict []) = .vdict [] := by
      unfold getDefault
      rw [h]
      rfl
    unfold SentinelConstraintsValidator.validate_grouping_configuration
    rw [hd]
    rfl
  · intro h
    simp [SentinelConstraintsValidator.validate_version, getVal, h]

/-- Witness for C3's amended statement: on the empty record every
non-required group other than version is silent and version errors. -/
theorem claim_C3_witness :
    SentinelConstraintsValidator.validate_tactics ([] : Record) = []
    ∧ SentinelConstraintsValidator.validate_relevant_techniques ([] : Record) = []
    ∧ SentinelConstraintsValidator.validate_event_grouping ([] : Record) = []
    ∧ SentinelConstraintsValidator.validate_entity_mappings_limits ([] : Record) = []
    ∧ SentinelConstraintsValidator.validate_custom_details ([] : Record) = []
    ∧ SentinelConstraintsValidator.validate_alert_details_override ([] : Record) = []
    ∧ SentinelConstraintsValidator.validate_grouping_configuration ([] : Record) = []
    ∧ SentinelConstraintsValidator.validate_version ([] : Record)
        = .ok [create_error "Field 'version' cannot be empty" (some "version")] := by
  have h := claim_C3_amended ([] : Record)
  exact ⟨h.2.1 rfl, h.2.2.1 rfl, h.2.2.2.1 rfl, h.2.2.2.2.1 rfl, h.2.2.2.2.2.1 rfl,
    h.2.2.2.2.2.2.1 rfl, h.2.2.2.2.2.2.2.1 rfl, h.2.2.2.2.2.2.2.2 rfl⟩

/-- C4 counterexample: a 32-hex-digit identifier without hyphens (and a
braced form) is not in canonical 8-4-4-4-12 grouping, yet the identifier
validator accepts it — no format error is returned. -/
theorem claim_C4_counterexample :
    specCanonicalGuid "3f2504e04f8941d39a0c0305e82c3301" = false
    ∧ GuidValidator.is_valid_guid (.vstr "3f2504e04f8941d39a0c0305e82c3301") = true
    ∧ GuidValidator.validate []
        [("id", .vstr "3f2504e04f8941d39a0c0305e82c3301")] "a.yaml" [] = []
    ∧ specCanonicalGuid "\x7b3f2504e0-4f89-41d3-9a0c-0305e82c3301\x7d" = false
    ∧ GuidValidator.is_valid_guid
        (.vstr "\x7b3f2504e0-4f89-41d3-9a0c-0305e82c3301\x7d") = true
    ∧ specCanonicalGuid "3f2504e0-4f89-41d3-9a0c-0305e82c3301" = true := by
  refine ⟨rfl, rfl, rfl, rfl, rfl, rfl⟩

/-- C4 amended: the identifier validator rejects exactly the values the
platform UUID parser rejects (canonical grouping is not required); for those
it returns the format error naming the value and the expected format, and
performs no uniqueness check regardless of the sibling list. -/
theorem claim_C4_amended
    (fs : FileSys) (rd : Record) (p : String) (fl : List String) (v : Value)
    (hid : getRaw rd "id" = some v)
    (hbad : GuidValidator.is_valid_guid v = false) :
    GuidValidator.validate fs rd p fl =
      [create_error (GuidValidator.invalidGuidMsg (pyStr v)) (some "id")] := by
  simp [GuidValidator.validate, hid, hbad]

/-- Witness for C4's amended statement: a malformed identifier gets exactly
the format error, with a non-empty sibling list supplied. -/
theorem claim_C4_witness :
    GuidValidator.validate [] [("id", .vstr "not-a-guid")] "a.yaml"
        ["a.yaml", "b.yaml"] =
      [create_error (GuidValidator.invalidGuidMsg "not-a-guid") (some "id")] :=
  claim_C4_amended [] [("id", .vstr "not-a-guid")] "a.yaml" ["a.yaml", "b.yaml"]
    (.vstr "not-a-guid") rfl rfl

/-- The record of C5's failing input: one entity mapping whose entity type
`host` differs from the known `Host` only in case. -/
def c5CaseRecord : Record :=
  [("entityMappings", .vlist [.vdict [("entityType", .vstr "host"),
    ("fieldMappings", .vlist [.vdict [("identifier", .vstr "HostName"),
      ("columnName", .vstr "Computer")]])]])]

/-- A second failing input for C5: an entity type with no case-insensitive
match at all. -/
def c5UnknownRecord : Record :=
  [("entityMappings", .vlist [.vdict [("entityType", .vstr "UnknownType"),
    ("fieldMappings", .vlist [.vdict [("identifier", .vstr "X"),
      ("columnName", .vstr "Y")]])]])]

/-- C5: evaluation at the failing inputs.  The helper that would produce the
correctly-cased suggestion exists at module level and works (`host ↦ Host`),
but it is not an attribute of the class, so for any unknown-cased or unknown
entity type `validate` raises `AttributeError` instead of returning the
claimed diagnostics; the orchestrator then records a `Validator crashed`
error. -/
theorem claim_C5_code_eval :
    EntityValidator.find_correct_entity_case "host" = some "Host"
    ∧ EntityValidator.find_correct_entity_case "UnknownType" = none
    ∧ EntityValidator.validate c5CaseRecord
        = .error "'EntityValidator' object has no attribute '_find_correct_entity_case'"
    ∧ EntityValidator.validate c5UnknownRecord
        = .error "'EntityValidator' object has no attribute '_find_correct_entity_case'"
    ∧ apply_validator [] c5CaseRecord "r.yaml" [] (ValidationResult.init "r.yaml")
        entityValidatorV
      = ⟨"r.yaml",
         [⟨"Entity Validator", "error",
           "Validator crashed: 'EntityValidator' object has no attribute '_find_correct_entity_case'",
           none⟩], [], false⟩ := by
  refine ⟨rfl, rfl, rfl, rfl, rfl⟩

lemma mem_find_duplicate_guids
    (fs : FileSys) (guid : Value) (p : String) (allFiles : List String)
    (q : String) (rq : Record) (vq : Value)
    (hmem : q ∈ allFiles) (hne : q ≠ p)
    (hload : load_yaml_file fs q = .ok rq)
    (hid : getVal rq "id" = some vq)
    (hnorm : lowerStr (trimStr (pyStr vq)) = lowerStr (trimStr (pyStr guid))) :
    q ∈ GuidValidator.find_duplicate_guids fs guid p allFiles := by
  unfold GuidValidator.find_duplicate_guids
  apply List.mem_filterMap.mpr
  exact ⟨q, hmem, by simp [hne, hload, hid, hnorm]⟩

/-- C7: for two sibling files that both load, with identifier values equal
after trim and lowercase and both in accepted identifier format, each run
reports the other as a duplicate: the duplicate relation is symmetric, and
each validate call returns exactly the non-uniqueness error listing its
duplicates. -/
theorem claim_C7_duplicate_symmetry
    (fs : FileSys) (pA pB : String) (rA rB : Record) (idA idB : String)
    (allFiles : List String)
    (hne : pA ≠ pB)
    (hA : load_yaml_file fs pA = .ok rA) (hB : load_yaml_file fs pB = .ok rB)
    (hidA : getRaw rA "id" = some (.vstr idA))
    (hidB : getRaw rB "id" = some (.vstr idB))
    (hvA : GuidValidator.uuidAccepts idA = true)
    (hvB : GuidValidator.uuidAccepts idB = true)
    (heq : lowerStr (trimStr idA) = lowerStr (trimStr idB))
    (hmemA : pA ∈ allFiles) (hmemB : pB ∈ allFiles) :
    pB ∈ GuidValidator.find_duplicate_guids fs (.vstr idA) pA allFiles
    ∧ pA ∈ GuidValidator.find_duplicate_guids fs (.vstr idB) pB allFiles
    ∧ GuidValidator.validate fs rA pA allFiles =
        [create_error (GuidValidator.notUniqueMsg idA
          (GuidValidator.find_duplicate_guids fs (.vstr idA) pA allFiles)) (some "id")]
    ∧ GuidValidator.validate fs rB pB allFiles =
        [create_error (GuidValidator.notUniqueMsg idB
          (GuidValidator.find_duplicate_guids fs (.vstr idB) pB allFiles)) (some "id")] := by
  have hgetB : getVal rB "id" = some (.vstr idB) := by
    unfold getVal
    rw [hidB]
  have hgetA : getVal rA "id" = some (.vstr idA) := by
    unfold getVal
    rw [hidA]
  have hdupA : pB ∈ GuidValidator.find_duplicate_guids fs (.vstr idA) pA allFiles :=
    mem_find_duplicate_guids fs (.vstr idA) pA allFiles pB rB (.vstr idB)
      hmemB (Ne.symm hne) hB hgetB (by simpa [pyStr] using heq.symm)
  have hdupB : pA ∈ GuidValidator.find_duplicate_guids fs (.vstr idB) pB allFiles :=
    mem_find_duplicate_guids fs (.vstr idB) pB allFiles pA rA (.vstr idA)
      hmemA hne hA hgetA (by simpa [pyStr] using heq)
  have hEmptyAll : allFiles.isEmpty = false := by
    cases allFiles with
    | nil => cases hmemA
    | cons a l => rfl
  have hdupAne : (GuidValidator.find_duplicate_guids fs (.vstr idA) pA allFiles).isEmpty
      = false := by
    cases hd : GuidValidator.find_duplicate_guids fs (.vstr idA) pA allFiles with
    | nil => rw [hd] at hdupA; cases hdupA
    | cons x xs => rfl
  have hdupBne : (GuidValidator.find_duplicate_guids fs (.vstr idB) pB allFiles).isEmpty
      = false := by
    cases hd : GuidValidator.find_duplicate_guids fs (.vstr idB) pB allFiles with
    | nil => rw [hd] at hdupB; cases hdupB
    | cons x xs => rfl
  refine ⟨hdupA, hdupB, ?_, ?_⟩
  · simp [GuidValidator.validate, hidA, GuidValidator.is_valid_guid, hvA,
      hEmptyAll, hdupAne, pyStr]
  · simp [GuidValidator.validate, hidB, GuidValidator.is_valid_guid, hvB,
      hEmptyAll, hdupBne, pyStr]

/-- Witness for C7: two concrete sibling files whose identifiers differ only
in case each report the other. -/
theorem claim_C7_witness :
    "b.yaml" ∈ GuidValidator.find_duplicate_guids
        [("a.yaml", .ok [("id", .vstr "3F2504E0-4F89-41D3-9A0C-0305E82C3301")]),
         ("b.yaml", .ok [("id", .vstr "3f2504e0-4f89-41d3-9a0c-0305e82c3301")])]
        (.vstr "3F2504E0-4F89-41D3-9A0C-0305E82C3301") "a.yaml" ["a.yaml", "b.yaml"]
    ∧ "a.yaml" ∈ GuidValidator.find_duplicate_guids
        [("a.yaml", .ok [("id", .vstr "3F2504E0-4F89-41D3-9A0C-0305E82C3301")]),
         ("b.yaml", .ok [("id", .vstr "3f2504e0-4f89-41d3-9a0c-0305e82c3301")])]
        (.vstr "3f2504e0-4f89-41d3-9a0c-0305e82c3301") "b.yaml" ["a.yaml", "b.yaml"] := by
  have h := claim_C7_duplicate_symmetry
    [("a.yaml", .ok [("id", .vstr "3F2504E0-4F89-41D3-9A0C-0305E82C3301")]),
     ("b.yaml", .ok [("id", .vstr "3f2504e0-4f89-41d3-9a0c-0305e82c3301")])]
    "a.yaml" "b.yaml"
    [("id", .vstr "3F2504E0-4F89-41D3-9A0C-0305E82C3301")]
    [("id", .vstr "3f2504e0-4f89-41d3-9a0c-0305e82c3301")]
    "3F2504E0-4F89-41D3-9A0C-0305E82C3301" "3f2504e0-4f89-41d3-9a0c-0305e82c3301"
    ["a.yaml", "b.yaml"] (by decide) rfl rfl rfl rfl rfl rfl rfl
    (by decide) (by decide)
  exact ⟨h.1, h.2.1⟩

/-- C8: a record with frequency `10m` and period `5m` yields exactly the one
frequency-exceeds-period error naming both resolved minute counts; a record
with period `15d` and no frequency yields exactly the one 14-day-cap error. -/
theorem claim_C8_timing (r1 r2 : Record) :
    ((getVal r1 "queryFrequency" = some (.vstr "10m")) →
     (getVal r1 "queryPeriod" = some (.vstr "5m")) →
      TimingValidator.validate r1 =
        [create_error
          "queryFrequency '10m' (10 minutes) cannot exceed queryPeriod '5m' (5 minutes)"
          (some "queryFrequency")])
    ∧ ((getVal r2 "queryPeriod" = some (.vstr "15d")) →
       (getVal r2 "queryFrequency" = none) →
        TimingValidator.validate r2 =
          [create_error
            "queryPeriod '15d' (21600 minutes) exceeds maximum of 14 days (20160 minutes)"
            (some "queryPeriod")])
    ∧ (∀ (fv : String) (fm : Nat),
        getVal r2 "queryPeriod" = some (.vstr "15d") →
        getVal r2 "queryFrequency" = some (.vstr fv) →
        TimingValidator.parse_time_value (.vstr fv) "queryFrequency" = (some fm, none) →
        fm ≤ 21600 →
        TimingValidator.validate r2 =
          [create_error
            "queryPeriod '15d' (21600 minutes) exceeds maximum of 14 days (20160 minutes)"
            (some "queryPeriod")]) := by
  refine ⟨?_, ?_, ?_⟩
  · intro h1 h2
    simp only [TimingValidator.validate, h1, h2]
    rfl
  · intro h1 h2
    simp only [TimingValidator.validate, h1, h2]
    rfl
  · intro fv fm h1 h2 hparse hle
    have hper : TimingValidator.parse_time_value (.vstr "15d") "queryPeriod"
        = (some 21600, none) := rfl
    have h15 : truthyV (.vstr "15d") = true := rfl
    cases hv : truthyV (.vstr fv) with
    | false =>
      simp only [TimingValidator.validate, h1, h2, truthy, hv, Bool.false_eq_true,
        if_false, Option.getD_some, hper, h15, if_true]
      rfl
    | true =>
      simp only [TimingValidator.validate, h1, h2, truthy, hv, if_true,
        Option.getD_some, hparse, hper, h15]
      rw [if_neg (by omega : ¬ fm > (21600 : Nat))]
      rfl

/-- Witness for C8 at the two concrete records. -/
theorem claim_C8_witness :
    TimingValidator.validate [("queryFrequency", .vstr "10m"), ("queryPeriod", .vstr "5m")] =
      [create_error
        "queryFrequency '10m' (10 minutes) cannot exceed queryPeriod '5m' (5 minutes)"
        (some "queryFrequency")]
    ∧ TimingValidator.validate [("queryPeriod", .vstr "15d")] =
      [create_error
        "queryPeriod '15d' (21600 minutes) exceeds maximum of 14 days (20160 minutes)"
        (some "queryPeriod")] := by
  have h := claim_C8_timing
    [("queryFrequency", .vstr "10m"), ("queryPeriod", .vstr "5m")]
    [("queryPeriod", .vstr "15d")]
  exact ⟨h.1 rfl rfl, h.2.1 rfl rfl⟩

end SentinelLinting
